import Mathlib

/-!
Verification development for `app.py` of the repository
`AlaingToul/mybinder_arrete_secheresse` (Streamlit application showing the
drought-restriction zones in force for surface water in France).

The Python functions of `app.py` are shallowly embedded as executable Lean
definitions.  Dataframes become lists of rows (structures holding the columns
the program reads), pandas/geopandas operations become list operations, raising
Python code returns `Except String`, and impure inputs (`dt.date.today()`, the
two network fetches, the Streamlit widgets) become explicit parameters.
-/

/-! ## Model of Python literal values (for `ast.literal_eval`)

`safe_literal_eval` in `app.py` feeds the string cells of the columns
`zones_alerte.niveau_gravite` and `zones_alerte.type` to `ast.literal_eval`.
In this data those cells denote flat Python lists of quoted strings (the severity
levels and water types), bare strings, or numbers.  `literal_eval` below is a
model of `ast.literal_eval` restricted to those literal forms: integers, quoted
strings without escape sequences, and flat lists of such scalars.  `none` models
the `ValueError`/`SyntaxError` outcome. -/

inductive PyScalar where
  | str (s : String)
  | int (n : Int)
deriving DecidableEq, Repr

inductive PyVal where
  | scalar (v : PyScalar)
  | list (xs : List PyScalar)
deriving DecidableEq, Repr

/-- Is the Python value a list? (pandas `is_list_like`). -/
def PyVal.est_liste : PyVal → Bool
  | .scalar _ => false
  | .list _ => true

/-- The single-quote character, written by code point. -/
def guillemet_simple : Char := Char.ofNat 39

/-- Skip blanks, as the Python tokenizer does between tokens. -/
def sauterEspaces : List Char → List Char
  | [] => []
  | c :: cs =>
    if c == ' ' || c == '\t' || c == '\n' || c == '\r' then sauterEspaces cs
    else c :: cs

/-- Read the body of a quoted string up to the closing quote `q`.
(Escape sequences are outside the modelled fragment.) -/
def lireChaine (q : Char) : List Char → Option (String × List Char)
  | [] => none
  | c :: cs =>
    if c == q then some ("", cs)
    else
      match lireChaine q cs with
      | some (s, reste) => some (⟨c :: s.data⟩, reste)
      | none => none

/-- Read a maximal run of decimal digits. -/
def lireChiffres : List Char → (List Char × List Char)
  | [] => ([], [])
  | c :: cs =>
    if c.isDigit then
      let p := lireChiffres cs
      (c :: p.1, p.2)
    else ([], c :: cs)

def chiffresVersNat (ds : List Char) : Nat :=
  ds.foldl (fun n c => 10 * n + (c.toNat - 48)) 0

/-- Read an (optionally negated) integer literal. -/
def lireEntier (cs : List Char) : Option (Int × List Char) :=
  match cs with
  | '-' :: reste =>
    match lireChiffres reste with
    | ([], _) => none
    | (ds, r) => some (-(chiffresVersNat ds : Int), r)
  | _ =>
    match lireChiffres cs with
    | ([], _) => none
    | (ds, r) => some ((chiffresVersNat ds : Int), r)

/-- Read one scalar literal: a quoted string or an integer. -/
def lireScalaire (cs : List Char) : Option (PyScalar × List Char) :=
  match cs with
  | [] => none
  | c :: r =>
    if c == '"' || c == guillemet_simple then
      (lireChaine c r).map (fun p => (.str p.1, p.2))
    else
      (lireEntier (c :: r)).map (fun p => (.int p.1, p.2))

/-- Read the comma-separated elements of a non-empty list literal, up to and
including the closing bracket.  `fuel` bounds the recursion. -/
def lireElements : Nat → List Char → Option (List PyScalar × List Char)
  | 0, _ => none
  | fuel + 1, cs =>
    match lireScalaire (sauterEspaces cs) with
    | none => none
    | some (v, reste) =>
      match sauterEspaces reste with
      | ']' :: r => some ([v], r)
      | ',' :: r =>
        match lireElements fuel r with
        | some (vs, r2) => some (v :: vs, r2)
        | none => none
      | _ => none

/-- Model of `ast.literal_eval` on the literal fragment used by this data:
integers, quoted strings, flat lists of those.  `none` models a raised
`ValueError` or `SyntaxError`. -/
def literal_eval (s : String) : Option PyVal :=
  match sauterEspaces s.data with
  | '[' :: r =>
    match sauterEspaces r with
    | ']' :: r2 => if (sauterEspaces r2).isEmpty then some (.list []) else none
    | r1 =>
      match lireElements s.data.length r1 with
      | some (vs, reste) =>
        if (sauterEspaces reste).isEmpty then some (.list vs) else none
      | none => none
  | cs =>
    match lireScalaire cs with
    | some (v, reste) =>
      if (sauterEspaces reste).isEmpty then some (.scalar v) else none
    | none => none

/-- `safe_literal_eval` of `app.py` (lines 342-357): wrap `ast.literal_eval`;
on `ValueError`/`SyntaxError` return the one-element list holding the raw
value. -/
def safe_literal_eval (value : String) : PyVal :=
  match literal_eval value with
  | some v => v
  | none => PyVal.list [PyScalar.str value]

example : safe_literal_eval "SUP" = PyVal.list [PyScalar.str "SUP"] := by rfl
example : safe_literal_eval "[\"crise\", \"alerte\"]"
    = PyVal.list [PyScalar.str "crise", PyScalar.str "alerte"] := by rfl
example : safe_literal_eval "3" = PyVal.scalar (PyScalar.int 3) := by rfl

/-! ## String comparison

Python compares strings lexicographically by code point; `pandas` elementwise
`<`/`>` on string columns does the same.  The executable comparison below is
that order on the character lists of the two strings. -/

def lt_chars : List Char → List Char → Bool
  | [], [] => false
  | [], _ :: _ => true
  | _ :: _, [] => false
  | a :: as, b :: bs => if a < b then true else if b < a then false else lt_chars as bs

/-- Python `a < b` on strings (lexicographic by code point). -/
def lt_chaine (a b : String) : Bool := lt_chars a.data b.data

example : lt_chaine "2024-03-15" "2024-04-01" = true := by decide
example : lt_chaine "2024-04-01" "2024-03-15" = false := by decide

/-! ## Dates

`dt.date.today()` is an input of the embedding.  `isoformat` renders a date the
way `datetime.date.isoformat` does (`yyyy-mm-dd`, zero padded), and
`premier_jour_mois_precedent` is
`today + relativedelta(months=-1, day=1)` (`relativedelta` applies the absolute
field `day=1` first, then subtracts one month). -/

structure Date where
  year : Nat
  month : Nat
  day : Nat
deriving DecidableEq, Repr

def completerZeros (largeur : Nat) (n : Nat) : String :=
  let s := toString n
  ⟨List.replicate (largeur - s.length) '0'⟩ ++ s

def isoformat (d : Date) : String :=
  completerZeros 4 d.year ++ "-" ++ completerZeros 2 d.month ++ "-" ++
    completerZeros 2 d.day

def premier_jour_mois_precedent (d : Date) : Date :=
  if d.month = 1 then ⟨d.year - 1, 12, 1⟩ else ⟨d.year, d.month - 1, 1⟩

example : isoformat ⟨2024, 5, 20⟩ = "2024-05-20" := by rfl
example : isoformat (premier_jour_mois_precedent ⟨2024, 1, 20⟩) = "2023-12-01" := by rfl

/-! ## The archive dataframe and `calculer_dept_arretes_date`

A row of the archive CSV (`get_arretes`), restricted to the columns the program
reads: `date_debut`, `date_fin`, `zones_alerte.niveau_gravite`,
`zones_alerte.type` (both string-encoded lists) and `departement`.
`pd.read_csv` is called without date parsing, so the date columns stay strings
and the comparisons of `calculer_dept_arretes_date` are string comparisons. -/

structure LigneArrete where
  date_debut : String
  date_fin : String
  zones_alerte_niveau_gravite : String
  zones_alerte_type : String
  departement : String
deriving DecidableEq, Repr

/-- An exploded row: the two `zones_alerte` columns now hold one element each
(`none` models the `NaN` that pandas puts for an empty list). -/
structure LigneExp where
  date_debut : String
  date_fin : String
  zones_alerte_niveau_gravite : Option PyScalar
  zones_alerte_type : Option PyScalar
  departement : String
deriving DecidableEq, Repr

/-- `DataFrame.explode` on the pair of columns, for one row: the two cells must
be list-likes of the same length, or both scalars; otherwise pandas raises
`ValueError: columns must have matching element counts`.  An empty pair of
lists yields one `NaN` row. -/
def explodePair (g t : PyVal) :
    Except String (List (Option PyScalar × Option PyScalar)) :=
  match g, t with
  | .list gs, .list ts =>
    if gs.length = ts.length then
      .ok (if gs.isEmpty then [(none, none)]
           else (gs.zip ts).map (fun p => (some p.1, some p.2)))
    else .error "columns must have matching element counts"
  | .scalar a, .scalar b => .ok [(some a, some b)]
  | _, _ => .error "columns must have matching element counts"

/-- Apply `safe_literal_eval` to the two list columns of one row and explode it
(lines 379-388 of `app.py`). -/
def explodeRow (r : LigneArrete) : Except String (List LigneExp) :=
  (explodePair (safe_literal_eval r.zones_alerte_niveau_gravite)
      (safe_literal_eval r.zones_alerte_type)).map
    (List.map (fun p => ⟨r.date_debut, r.date_fin, p.1, p.2, r.departement⟩))

/-- Explode a whole dataframe: the exploded rows of each row, concatenated in
order. -/
def explodeDf : List LigneArrete → Except String (List LigneExp)
  | [] => .ok []
  | r :: rs => do
    let tete ← explodeRow r
    let reste ← explodeDf rs
    pure (tete ++ reste)

/-- Filter `zones_alerte.type == 'SUP'` on an exploded row. -/
def est_type_sup (e : LigneExp) : Bool :=
  e.zones_alerte_type == some (PyScalar.str "SUP")

/-- Filter `zones_alerte.niveau_gravite.isin(niveaux)` on an exploded row:
`NaN` and non-string cells match no string of `niveaux`. -/
def niveau_dans (niveaux : List String) (e : LigneExp) : Bool :=
  match e.zones_alerte_niveau_gravite with
  | some (PyScalar.str s) => niveaux.contains s
  | _ => false

/-- Both date filters of `calculer_dept_arretes_date` at once: the arrêté is
valid at `date_compar` (`date_debut < date_compar` and
`date_fin > date_compar`). -/
def filtre_dates (date_compar : String) (r : LigneArrete) : Bool :=
  lt_chaine r.date_debut date_compar && lt_chaine date_compar r.date_fin

/-- `calculer_dept_arretes_date` of `app.py` (lines 361-403): filter the
archive on validity at `date_compar`, parse and explode the two
`zones_alerte` list columns, keep type `'SUP'` and the severity levels of
`niveaux`, and count the distinct values of `departement`; `0` when nothing is
left.  The `isEmpty` guards mirror the `if not ...empty` guards of the
source. -/
def calculer_dept_arretes_date (df_arretes : List LigneArrete)
    (date_compar : String) (niveaux : List String) : Except String Nat := do
  let l1 := df_arretes.filter (fun r => lt_chaine r.date_debut date_compar)
  let l2 := if l1.isEmpty then l1
            else l1.filter (fun r => lt_chaine date_compar r.date_fin)
  let l3 ← if l2.isEmpty then pure [] else explodeDf l2
  let l4 := if l3.isEmpty then l3 else l3.filter est_type_sup
  if l4.isEmpty then pure 0
  else
    let df_arretes_non_vigi := l4.filter (niveau_dans niveaux)
    if df_arretes_non_vigi.isEmpty then pure 0
    else pure ((df_arretes_non_vigi.map (fun e => e.departement)).dedup).length

/-- `calculer_dept_arretes_an_passe` of `app.py` (lines 407-424): same count a
year before `aujourdhui`, at the first of the month, for the levels beyond
vigilance — note the source spells the middle level "alerte renforcée" here,
unlike the `alerte_renforcee` spelling used for the previous-month counts. -/
def calculer_dept_arretes_an_passe (df_arretes : List LigneArrete)
    (aujourdhui : Date) : Except String Nat :=
  calculer_dept_arretes_date df_arretes
    (isoformat ⟨aujourdhui.year - 1, aujourdhui.month, 1⟩)
    ["alerte", "alerte renforcée", "crise"]

example :
    calculer_dept_arretes_date
      [⟨"2024-03-15", "2024-12-31", "[\"crise\", \"alerte\"]",
        "[\"SUP\", \"SOU\"]", "01"⟩,
       ⟨"2024-03-01", "2024-05-01", "vigilance", "SUP", "02"⟩]
      "2024-04-01" ["crise"] = .ok 1 := by rfl
example :
    calculer_dept_arretes_date
      [⟨"2024-03-15", "2024-12-31", "[\"crise\", \"alerte\"]",
        "[\"SUP\", \"SOU\"]", "01"⟩]
      "2024-04-01" ["alerte"] = .ok 0 := by rfl

/-! ## The zone layer and `get_zones_secheresse`

A feature of the drought-zone layer, restricted to the attributes the program
reads.  The cells `departement` and `arreteRestriction` hold JSON objects
(`json.loads` is applied to them); they are modelled as association lists of
string fields, and `json.loads(x)['k']` as a lookup that raises (`.error`) when
the key is absent. -/

structure ZoneBrute where
  id : String
  type : String
  niveauGravite : String
  departement : List (String × String)
  arreteRestriction : List (String × String)
deriving DecidableEq, Repr

/-- A zone row as returned by `get_zones_secheresse`, with the two derived
columns `insee_dept` and `chemin_fichier` added. -/
structure ZoneSup where
  id : String
  type : String
  niveauGravite : String
  departement : List (String × String)
  arreteRestriction : List (String × String)
  insee_dept : String
  chemin_fichier : String
deriving DecidableEq, Repr

/-- Insertion into a list sorted in increasing order. -/
def insere_trie (i : String) : List String → List String
  | [] => [i]
  | j :: js => if lt_chars i.data j.data || i == j then i :: j :: js
               else j :: insere_trie i js

/-- `dissolve(by='id', aggfunc='first')` on the attribute table: one row per
distinct `id` (the first row bearing it), rows ordered by increasing `id`
(geopandas sorts the group keys); the merged geometry is outside the model. -/
def dissolve_par_id (l : List ZoneBrute) : List ZoneBrute :=
  (((l.map (fun z => z.id)).dedup).foldr insere_trie []).filterMap
    (fun i => l.find? (fun z => z.id == i))

/-- `json.loads(row['departement'])['code']` (line 73 of `app.py`). -/
def calcul_insee (z : ZoneBrute) : Except String (ZoneBrute × String) :=
  match z.departement.lookup "code" with
  | some code => .ok (z, code)
  | none => .error "KeyError: code"

/-- `json.loads(row['arreteRestriction'])['fichier']` (line 80 of `app.py`). -/
def ajout_chemin (p : ZoneBrute × String) : Except String ZoneSup :=
  match p.1.arreteRestriction.lookup "fichier" with
  | some fichier =>
    .ok ⟨p.1.id, p.1.type, p.1.niveauGravite, p.1.departement,
         p.1.arreteRestriction, p.2, fichier⟩
  | none => .error "KeyError: fichier"

def appliquer_insee : List ZoneBrute → Except String (List (ZoneBrute × String))
  | [] => .ok []
  | z :: zs => do
    let p ← calcul_insee z
    let reste ← appliquer_insee zs
    pure (p :: reste)

def appliquer_chemin : List (ZoneBrute × String) → Except String (List ZoneSup)
  | [] => .ok []
  | p :: ps => do
    let z ← ajout_chemin p
    let reste ← appliquer_chemin ps
    pure (z :: reste)

/-- `get_zones_secheresse` of `app.py` (lines 34-82): keep the `'SUP'` rows,
dissolve by `id` when the layer came from the PMTiles URL (`depuis_fichier =
false`), derive `insee_dept`, keep metropolitan departments (code shorter than
3 characters — the `.where`/`.dropna` pair of the source amounts to this
filter), and derive `chemin_fichier`. -/
def get_zones_secheresse (depuis_fichier : Bool) (zones : List ZoneBrute) :
    Except String (List ZoneSup) := do
  let z1 := zones.filter (fun z => z.type == "SUP")
  let z2 := if depuis_fichier then z1 else dissolve_par_id z1
  let z3 ← appliquer_insee z2
  let z4 := z3.filter (fun p => decide (p.2.length < 3))
  appliquer_chemin z4

example :
    get_zones_secheresse true
      [⟨"a", "SUP", "crise", [("code", "01"), ("nom", "Ain")],
        [("fichier", "u1")]⟩,
       ⟨"b", "SOU", "crise", [("code", "02")], [("fichier", "u2")]⟩,
       ⟨"c", "SUP", "alerte", [("code", "974")], [("fichier", "u3")]⟩]
    = .ok [⟨"a", "SUP", "crise", [("code", "01"), ("nom", "Ain")],
            [("fichier", "u1")], "01", "u1"⟩] := by rfl

/-! ## Current-date indicators over the zone layer -/

/-- A row of the VNF-network department layer (`departements_itineraires.gpkg`),
restricted to the attributes the program reads. -/
structure Departement where
  insee_dep : String
  nom : String
deriving DecidableEq, Repr

/-- `calculer_dept_zone_restrict` of `app.py` (lines 428-449): number of
distinct `insee_dept` among the zones whose level is not `"vigilance"`. -/
def calculer_dept_zone_restrict (zones_arretes : List ZoneSup) : Nat :=
  let zones_non_vigilance :=
    zones_arretes.filter (fun z => !(z.niveauGravite == "vigilance"))
  if zones_non_vigilance.isEmpty then 0
  else ((zones_non_vigilance.map (fun z => z.insee_dept)).dedup).length

/-- `calculer_dept_zone_vnf_niveau` of `app.py` (lines 453-485): the VNF
departments having a zone at exactly the level `niveau` — count of matching
`dept_iti` rows and the comma-joined list of their names. -/
def calculer_dept_zone_vnf_niveau (zones_arretes : List ZoneSup)
    (dept_iti : List Departement) (niveau : String) : Nat × String :=
  let zones_filtres := zones_arretes.filter (fun z => z.niveauGravite == niveau)
  if zones_filtres.isEmpty then (0, "")
  else
    let dept_filtre := (zones_filtres.map (fun z => z.insee_dept)).dedup
    let dept_resultat :=
      dept_iti.filter (fun d => dept_filtre.contains d.insee_dep)
    if dept_resultat.isEmpty then (0, "")
    else (dept_resultat.length,
          String.intercalate ", " (dept_resultat.map (fun d => d.nom)))

/-! ## The indicator table -/

/-- One row of the indicator dataframe of `construire_table_indic`: its nine
documented columns `dept_fr`, `dept_vnf_crise_code`, `dept_vnf_crise_nom`,
`dept_vnf_ar_code`, `dept_vnf_ar_nom`, `dept_vnf_a_code`, `dept_vnf_a_nom`,
`dept_vnf_vg_code`, `dept_vnf_vg_nom`. -/
structure LigneIndic where
  dept_fr : Nat
  dept_vnf_crise_code : Nat
  dept_vnf_crise_nom : String
  dept_vnf_ar_code : Nat
  dept_vnf_ar_nom : String
  dept_vnf_a_code : Nat
  dept_vnf_a_nom : String
  dept_vnf_vg_code : Nat
  dept_vnf_vg_nom : String
deriving DecidableEq, Repr

/-- `construire_table_indic` of `app.py` (lines 489-600): the indicator
dataframe, one labelled row per time horizon, in insertion order
`annee_courante`, `annee_precedente`, `mois_precedent`. -/
def construire_table_indic (df_arretes : List LigneArrete)
    (zones_arretes : List ZoneSup) (dept_iti : List Departement)
    (aujourdhui : Date) : Except String (List (String × LigneIndic)) := do
  let nb_dept_r_z := calculer_dept_zone_restrict zones_arretes
  let nb_dept_vnf_crise := calculer_dept_zone_vnf_niveau zones_arretes dept_iti "crise"
  let nb_dept_vnf_ar := calculer_dept_zone_vnf_niveau zones_arretes dept_iti "alerte_renforcee"
  let nb_dept_vnf_a := calculer_dept_zone_vnf_niveau zones_arretes dept_iti "alerte"
  let nb_dept_vnf_vg := calculer_dept_zone_vnf_niveau zones_arretes dept_iti "vigilance"
  let ligne_annee_courante : LigneIndic :=
    ⟨nb_dept_r_z, nb_dept_vnf_crise.1, nb_dept_vnf_crise.2,
     nb_dept_vnf_ar.1, nb_dept_vnf_ar.2, nb_dept_vnf_a.1, nb_dept_vnf_a.2,
     nb_dept_vnf_vg.1, nb_dept_vnf_vg.2⟩
  let nb_dept_an_passe ← calculer_dept_arretes_an_passe df_arretes aujourdhui
  let ligne_annee_precedente : LigneIndic :=
    ⟨nb_dept_an_passe, 0, "", 0, "", 0, "", 0, ""⟩
  let date_compar := isoformat (premier_jour_mois_precedent aujourdhui)
  let nb_dept_r_z_mois_prec ←
    calculer_dept_arretes_date df_arretes date_compar
      ["alerte", "alerte_renforcee", "crise"]
  let nb_dept_vnf_crise_mois_prec ←
    calculer_dept_arretes_date df_arretes date_compar ["crise"]
  let nb_dept_vnf_ar_mois_prec ←
    calculer_dept_arretes_date df_arretes date_compar ["alerte_renforcee"]
  let nb_dept_vnf_a_mois_prec ←
    calculer_dept_arretes_date df_arretes date_compar ["alerte"]
  let nb_dept_vnf_vg_mois_prec ←
    calculer_dept_arretes_date df_arretes date_compar ["vigilance"]
  let ligne_mois_precedent : LigneIndic :=
    ⟨nb_dept_r_z_mois_prec, nb_dept_vnf_crise_mois_prec, "",
     nb_dept_vnf_ar_mois_prec, "", nb_dept_vnf_a_mois_prec, "",
     nb_dept_vnf_vg_mois_prec, ""⟩
  pure [("annee_courante", ligne_annee_courante),
        ("annee_precedente", ligne_annee_precedente),
        ("mois_precedent", ligne_mois_precedent)]

/-- The five month-over-month differences that `inserer_indic_dept` displays
(lines 657 and 681-711 of `app.py`): current-date count minus prior-month
count, per column. -/
structure DiffsMois where
  diff_dept_fr : Int
  diff_vnf_vg : Int
  diff_vnf_a : Int
  diff_vnf_ar : Int
  diff_vnf_crise : Int
deriving DecidableEq, Repr

/-- The numeric core of `inserer_indic_dept` of `app.py` (lines 604-727): look
up the `annee_courante` and `mois_precedent` rows and form the displayed
differences (a missing row label raises `KeyError`, modelled by `none`). -/
def inserer_indic_dept (table_indic : List (String × LigneIndic)) :
    Option DiffsMois := do
  let ac ← table_indic.lookup "annee_courante"
  let mp ← table_indic.lookup "mois_precedent"
  pure ⟨(ac.dept_fr : Int) - (mp.dept_fr : Int),
        (ac.dept_vnf_vg_code : Int) - (mp.dept_vnf_vg_code : Int),
        (ac.dept_vnf_a_code : Int) - (mp.dept_vnf_a_code : Int),
        (ac.dept_vnf_ar_code : Int) - (mp.dept_vnf_ar_code : Int),
        (ac.dept_vnf_crise_code : Int) - (mp.dept_vnf_crise_code : Int)⟩

/-! ## The map and `main` -/

/-- The colour assigned to a zone by `construire_carte` (lines 263-268 of
`app.py`); `map` yields `NaN` (`none`) outside the four level codes. -/
def couleur_niveau (niveau : String) : Option String :=
  (List.zip ["vigilance", "alerte", "alerte_renforcee", "crise"]
    ["#ffeda0", "#feb24c", "#fc4e2a", "#b10026"]).lookup niveau

/-- The data content of the folium map built by `construire_carte` of `app.py`
(lines 247-338): the coloured zone layer, the VNF department layer, and whether
the title carries today's date (it does exactly when the layer was fetched from
the URL rather than uploaded). -/
structure Carte where
  zones : List (ZoneSup × Option String)
  dept : List Departement
  titre_avec_date : Bool
deriving DecidableEq, Repr

def construire_carte (zones_arrete : List ZoneSup) (dept_iti : List Departement)
    (depuis_fichier : Bool) : Carte :=
  ⟨zones_arrete.map (fun z => (z, couleur_niveau z.niveauGravite)),
   dept_iti, !depuis_fichier⟩

/-- The successive steps of one run of `main`, in execution order. -/
inductive Etape where
  | chargement_itineraire
  | chargement_departements
  | recuperation_zones
  | recuperation_arretes
  | calcul_table_indic
  | construction_carte
  | affichage_carte
  | affichage_indicateurs
deriving DecidableEq, Repr

/-- The pipeline phase of a step: 0 fetch/load, 1 aggregate, 2 render. -/
def phase : Etape → Nat
  | .chargement_itineraire => 0
  | .chargement_departements => 0
  | .recuperation_zones => 0
  | .recuperation_arretes => 0
  | .calcul_table_indic => 1
  | .construction_carte => 2
  | .affichage_carte => 2
  | .affichage_indicateurs => 2

/-- Observable outcome of one run of `main`: the ordered step trace, the
successive texts written to `data_load_state`, the archive dataframe actually
used, the indicator table (when built), the map (when built), whether the
indicators were rendered, and the failure text of the indicators tab (when
shown there). -/
structure SortieMain where
  trace : List Etape
  messages : List String
  df_arretes : List LigneArrete
  table_indic : Option (List (String × LigneIndic))
  carte : Option Carte
  indicateurs_affiches : Bool
  message_indicateurs : Option String
deriving DecidableEq, Repr

/-- The archive dataframe after the `try/except` of `main`: the fetched frame,
or the empty frame when `get_arretes` raised. -/
def df_de (x : Except String (List LigneArrete)) : List LigneArrete :=
  match x with
  | .ok df => df
  | .error _ => []

/-- Did the `except` branch of `main` run? -/
def echec_de (x : Except String (List LigneArrete)) : Bool :=
  match x with
  | .ok _ => false
  | .error _ => true

/-- `main` of `app.py` (lines 738-822), as a function of its impure inputs:
whether a file was uploaded, the session-state flag set by the button, the
outcome of the zones fetch (or file read), the outcome of `get_arretes` — the
only call wrapped in `try/except` — the local VNF department layer, and
today's date.  Any raise outside that `try` (zones fetch,
`get_zones_secheresse`, `construire_table_indic`) propagates as `.error`. -/
def mainRun (uploaded construire_flag : Bool)
    (zones_reseau : Except String (List ZoneBrute))
    (arretes_reseau : Except String (List LigneArrete))
    (dept_iti : List Departement) (aujourdhui : Date) :
    Except String SortieMain := do
  let zones_brutes ← zones_reseau
  let zones_arretes ← get_zones_secheresse uploaded zones_brutes
  let df_arretes := df_de arretes_reseau
  let echec_arretes := echec_de arretes_reseau
  let table_indic ←
    if df_arretes.isEmpty then pure none
    else do
      let t ← construire_table_indic df_arretes zones_arretes dept_iti aujourdhui
      pure (some t)
  let carte := if construire_flag then
      some (construire_carte zones_arretes dept_iti uploaded)
    else none
  pure {
    trace := [Etape.chargement_itineraire, Etape.chargement_departements,
              Etape.recuperation_zones, Etape.recuperation_arretes]
      ++ (if df_arretes.isEmpty then [] else [Etape.calcul_table_indic])
      ++ (if construire_flag then
            [Etape.construction_carte, Etape.affichage_carte]
              ++ (if df_arretes.isEmpty then [] else [Etape.affichage_indicateurs])
          else []),
    messages := ["Chargement des données..."]
      ++ (if echec_arretes then
            ["Echec du téléchargement des données des arrêtés"] else [])
      ++ ["Chargement des données...Terminé !"]
      ++ (if construire_flag then
            ["Construction carte...", "Construction carte...Terminé !",
             "Visualisation carte...", "Visualisation carte...Terminé !"]
              ++ (if df_arretes.isEmpty then
                    ["Echec du téléchargement des données des arrêtés"]
                  else ["Visualisation indicateurs...", ""])
          else []),
    df_arretes := df_arretes,
    table_indic := table_indic,
    carte := carte,
    indicateurs_affiches := construire_flag && !df_arretes.isEmpty,
    message_indicateurs :=
      if construire_flag && df_arretes.isEmpty then
        some "Echec du téléchargement des données des arrêtés"
      else none }

/-! ## Helper lemmas -/

theorem ok_bind {ε α β : Type} (a : α) (f : α → Except ε β) :
    (Except.ok a >>= f) = f a := rfl

theorem error_bind {ε α β : Type} (e : ε) (f : α → Except ε β) :
    ((Except.error e : Except ε α) >>= f) = .error e := rfl

theorem except_bind_ok {ε α β : Type} {x : Except ε α} {f : α → Except ε β}
    {b : β} : (x >>= f) = .ok b ↔ ∃ a, x = .ok a ∧ f a = .ok b := by
  cases x with
  | ok a => simp [ok_bind]
  | error e => simp [error_bind]

theorem garde_filtre {α : Type} (l : List α) (p : α → Bool) :
    (if l.isEmpty then l else l.filter p) = l.filter p := by
  cases l <;> simp

theorem garde_pure_explode (l : List LigneArrete) :
    (if l.isEmpty then (pure [] : Except String (List LigneExp))
     else explodeDf l) = explodeDf l := by
  cases l with
  | nil => rfl
  | cons a l => simp

theorem filter_filter_mine {α : Type} (p q : α → Bool) (l : List α) :
    (l.filter p).filter q = l.filter (fun a => p a && q a) := by
  induction l with
  | nil => rfl
  | cons a as ih =>
    by_cases hp : p a <;> by_cases hq : q a <;>
      simp [List.filter_cons, hp, hq, ih]

/-- The two staged date filters of the source, with their emptiness guard,
amount to one filter on validity at the date. -/
theorem garde_filtre_dates (df : List LigneArrete) (d : String) :
    (if (df.filter (fun r => lt_chaine r.date_debut d)).isEmpty
     then df.filter (fun r => lt_chaine r.date_debut d)
     else (df.filter (fun r => lt_chaine r.date_debut d)).filter
            (fun r => lt_chaine d r.date_fin))
      = df.filter (fun r => lt_chaine r.date_debut d && lt_chaine d r.date_fin) := by
  rw [garde_filtre, filter_filter_mine]

theorem explodeDf_append (l1 l2 : List LigneArrete) :
    explodeDf (l1 ++ l2) =
      (do
        let a ← explodeDf l1
        let b ← explodeDf l2
        pure (a ++ b)) := by
  induction l1 with
  | nil =>
    cases h : explodeDf l2 <;> simp [explodeDf, h, ok_bind, error_bind]
  | cons r rs ih =>
    cases h1 : explodeRow r <;> cases h2 : explodeDf rs <;>
        cases h3 : explodeDf l2 <;>
      simp [explodeDf, h1, h2, h3, ih, ok_bind, error_bind, Except.map,
        List.append_assoc]

/-- Characterization of `calculer_dept_arretes_date`: when the explosion of
the date-filtered archive succeeds, the result is the number of distinct
`departement` values among the exploded rows with type `'SUP'` and level in
`niveaux`. -/
theorem calculer_dept_arretes_date_caracterisation (df : List LigneArrete)
    (date_compar : String) (niveaux : List String) (exp : List LigneExp)
    (h : explodeDf (df.filter (fun r =>
        lt_chaine r.date_debut date_compar && lt_chaine date_compar r.date_fin))
      = .ok exp) :
    calculer_dept_arretes_date df date_compar niveaux =
      .ok ((((exp.filter (fun e => est_type_sup e && niveau_dans niveaux e)).map
        (fun e => e.departement)).dedup).length) := by
  simp only [calculer_dept_arretes_date]
  rw [garde_filtre_dates]
  by_cases hF : (df.filter (fun r =>
      lt_chaine r.date_debut date_compar
        && lt_chaine date_compar r.date_fin)).isEmpty = true
  · rw [if_pos hF]
    rw [List.isEmpty_iff.mp hF] at h
    simp only [explodeDf] at h
    cases h
    rfl
  · rw [if_neg hF, h, ok_bind, garde_filtre, filter_filter_mine]
    by_cases h4 : (exp.filter est_type_sup).isEmpty = true
    · rw [if_pos h4]
      rw [List.isEmpty_iff] at h4
      have h6 : exp.filter (fun e => est_type_sup e && niveau_dans niveaux e) = [] := by
        rw [← filter_filter_mine, h4]
        rfl
      rw [h6]
      rfl
    · rw [if_neg h4]
      by_cases h5 :
          (exp.filter (fun e => est_type_sup e && niveau_dans niveaux e)).isEmpty = true
      · rw [if_pos h5]
        rw [List.isEmpty_iff] at h5
        rw [h5]
        rfl
      · rw [if_neg h5]
        rfl

theorem appliquer_insee_mem {l : List ZoneBrute}
    {out : List (ZoneBrute × String)} (h : appliquer_insee l = .ok out) :
    ∀ p ∈ out, ∃ z ∈ l, calcul_insee z = .ok p := by
  induction l generalizing out with
  | nil =>
    simp only [appliquer_insee] at h
    cases h
    simp
  | cons z zs ih =>
    simp only [appliquer_insee] at h
    cases h1 : calcul_insee z with
    | error e =>
      rw [h1, error_bind] at h
      cases h
    | ok p0 =>
      rw [h1, ok_bind] at h
      cases h2 : appliquer_insee zs with
      | error e =>
        rw [h2, error_bind] at h
        cases h
      | ok rest =>
        rw [h2, ok_bind] at h
        cases h
        intro p hp
        rcases List.mem_cons.mp hp with hp0 | hp'
        · exact ⟨z, List.mem_cons_self z zs, hp0 ▸ h1⟩
        · obtain ⟨z', hz', hc⟩ := ih h2 p hp'
          exact ⟨z', List.mem_cons_of_mem _ hz', hc⟩

theorem appliquer_chemin_mem {l : List (ZoneBrute × String)}
    {out : List ZoneSup} (h : appliquer_chemin l = .ok out) :
    ∀ z ∈ out, ∃ p ∈ l, ajout_chemin p = .ok z := by
  induction l generalizing out with
  | nil =>
    simp only [appliquer_chemin] at h
    cases h
    simp
  | cons p ps ih =>
    simp only [appliquer_chemin] at h
    cases h1 : ajout_chemin p with
    | error e =>
      rw [h1, error_bind] at h
      cases h
    | ok z0 =>
      rw [h1, ok_bind] at h
      cases h2 : appliquer_chemin ps with
      | error e =>
        rw [h2, error_bind] at h
        cases h
      | ok rest =>
        rw [h2, ok_bind] at h
        cases h
        intro z hz
        rcases List.mem_cons.mp hz with hz0 | hz'
        · exact ⟨p, List.mem_cons_self p ps, hz0 ▸ h1⟩
        · obtain ⟨p', hp', hc⟩ := ih h2 z hz'
          exact ⟨p', List.mem_cons_of_mem _ hp', hc⟩

theorem dissolve_par_id_mem {l : List ZoneBrute} :
    ∀ z ∈ dissolve_par_id l, z ∈ l := by
  intro z hz
  simp only [dissolve_par_id] at hz
  rcases List.mem_filterMap.mp hz with ⟨i, _, hfind⟩
  exact List.mem_of_find?_eq_some hfind

/-- Every row returned by `get_zones_secheresse` descends from an input row of
type `'SUP'`, keeps its attribute cells, and carries the two derived columns
`insee_dept` (the `code` field of `departement`, shorter than 3 characters)
and `chemin_fichier` (the `fichier` field of `arreteRestriction`). -/
theorem get_zones_sortie_invariant (depuis_fichier : Bool)
    (zones : List ZoneBrute) (sortie : List ZoneSup)
    (h : get_zones_secheresse depuis_fichier zones = .ok sortie) :
    ∀ z ∈ sortie, ∃ zb ∈ zones, zb.type = "SUP" ∧ z.type = zb.type ∧
      z.departement = zb.departement ∧
      z.arreteRestriction = zb.arreteRestriction ∧
      z.departement.lookup "code" = some z.insee_dept ∧
      z.insee_dept.length < 3 ∧
      z.arreteRestriction.lookup "fichier" = some z.chemin_fichier := by
  intro z hz
  simp only [get_zones_secheresse] at h
  rcases except_bind_ok.mp h with ⟨z3, h3, h4⟩
  obtain ⟨p, hp, hajout⟩ := appliquer_chemin_mem h4 z hz
  have hpf := List.mem_filter.mp hp
  obtain ⟨zb, hzb, hinsee⟩ := appliquer_insee_mem h3 p hpf.1
  have hzb1 : zb ∈ zones.filter (fun w => w.type == "SUP") := by
    cases depuis_fichier with
    | false => exact dissolve_par_id_mem zb hzb
    | true => exact hzb
  have hzbm := List.mem_filter.mp hzb1
  have hsup : zb.type = "SUP" := by simpa using hzbm.2
  unfold calcul_insee at hinsee
  cases hcode : zb.departement.lookup "code" with
  | none =>
    rw [hcode] at hinsee
    cases hinsee
  | some code =>
    rw [hcode] at hinsee
    cases hinsee
    unfold ajout_chemin at hajout
    cases hfich : zb.arreteRestriction.lookup "fichier" with
    | none =>
      rw [hfich] at hajout
      cases hajout
    | some fichier =>
      rw [hfich] at hajout
      cases hajout
      refine ⟨zb, hzbm.1, hsup, rfl, rfl, rfl, hcode, ?_, hfich⟩
      simpa using hpf.2

/-- When the explosion of the date-filtered archive raises,
`calculer_dept_arretes_date` propagates the error. -/
theorem calculer_dept_arretes_date_erreur (df : List LigneArrete)
    (date_compar : String) (niveaux : List String) (e : String)
    (h : explodeDf (df.filter (fun r =>
        lt_chaine r.date_debut date_compar && lt_chaine date_compar r.date_fin))
      = .error e) :
    calculer_dept_arretes_date df date_compar niveaux = .error e := by
  simp only [calculer_dept_arretes_date]
  rw [garde_filtre_dates]
  by_cases hF : (df.filter (fun r =>
      lt_chaine r.date_debut date_compar
        && lt_chaine date_compar r.date_fin)).isEmpty = true
  · rw [List.isEmpty_iff.mp hF] at h
    simp only [explodeDf] at h
    cases h
  · rw [if_neg hF, h, error_bind]

/-! ## Claim theorems -/

/-- C2: for every archive dataframe, comparison date and level list (under the
success of the explosion of the date-filtered archive,
`calculer_dept_arretes_date` otherwise propagates the pandas `ValueError`),
the function returns exactly the number of distinct values of the
`departement` column among the exploded rows satisfying date-range membership
(`date_debut` earlier than the date and `date_fin` later), category membership
(`zones_alerte.type` equal to `'SUP'` after list explosion) and whose
`zones_alerte.niveau_gravite` is in the level list; when no row qualifies the
filtered list is empty and the count is `0`. -/
theorem calculer_dept_arretes_date_correct (df : List LigneArrete)
    (date_compar : String) (niveaux : List String) (exp : List LigneExp)
    (h : explodeDf (df.filter (fun r =>
        lt_chaine r.date_debut date_compar && lt_chaine date_compar r.date_fin))
      = .ok exp) :
    calculer_dept_arretes_date df date_compar niveaux =
      .ok ((((exp.filter (fun e => est_type_sup e && niveau_dans niveaux e)).map
        (fun e => e.departement)).dedup).length) :=
  calculer_dept_arretes_date_caracterisation df date_compar niveaux exp h

/-- Witness for C2 at a concrete archive: one arrêté over two zones
(`crise`/`SUP` and `alerte`/`SOU`) and one single-zone row. -/
theorem calculer_dept_arretes_date_correct_temoin :
    calculer_dept_arretes_date
      [⟨"2024-03-15", "2024-12-31", "[\"crise\", \"alerte\"]",
        "[\"SUP\", \"SOU\"]", "01"⟩,
       ⟨"2024-03-01", "2024-05-01", "vigilance", "SUP", "02"⟩]
      "2024-04-01" ["crise"]
      = .ok (((((
          [⟨"2024-03-15", "2024-12-31", some (PyScalar.str "crise"),
            some (PyScalar.str "SUP"), "01"⟩,
           ⟨"2024-03-15", "2024-12-31", some (PyScalar.str "alerte"),
            some (PyScalar.str "SOU"), "01"⟩,
           ⟨"2024-03-01", "2024-05-01", some (PyScalar.str "vigilance"),
            some (PyScalar.str "SUP"), "02"⟩] : List LigneExp).filter
          (fun e => est_type_sup e && niveau_dans ["crise"] e)).map
          (fun e => e.departement)).dedup).length) :=
  calculer_dept_arretes_date_correct _ _ _ _ (by rfl)

/-- C9: every row returned by `get_zones_secheresse` belongs to a metropolitan
department — `insee_dept` is the `code` field of the row's `departement` JSON
and has fewer than 3 characters — and carries `chemin_fichier`, the `fichier`
field of its `arreteRestriction` JSON. -/
theorem zones_metropole_colonnes (depuis_fichier : Bool)
    (zones : List ZoneBrute) (sortie : List ZoneSup)
    (h : get_zones_secheresse depuis_fichier zones = .ok sortie) :
    ∀ z ∈ sortie, z.insee_dept.length < 3 ∧
      z.departement.lookup "code" = some z.insee_dept ∧
      z.arreteRestriction.lookup "fichier" = some z.chemin_fichier := by
  intro z hz
  obtain ⟨zb, _, _, _, _, _, hcode, hlen, hfich⟩ :=
    get_zones_sortie_invariant depuis_fichier zones sortie h z hz
  exact ⟨hlen, hcode, hfich⟩

/-- Witness for C9 at a concrete uploaded layer of one `SUP` zone. -/
theorem zones_metropole_colonnes_temoin :
    (⟨"a", "SUP", "crise", [("code", "01"), ("nom", "Ain")],
      [("fichier", "u1")], "01", "u1"⟩ : ZoneSup).insee_dept.length < 3 ∧
    (⟨"a", "SUP", "crise", [("code", "01"), ("nom", "Ain")],
      [("fichier", "u1")], "01", "u1"⟩ : ZoneSup).departement.lookup "code"
      = some "01" ∧
    (⟨"a", "SUP", "crise", [("code", "01"), ("nom", "Ain")],
      [("fichier", "u1")], "01", "u1"⟩ : ZoneSup).arreteRestriction.lookup
        "fichier" = some "u1" :=
  zones_metropole_colonnes true
    [⟨"a", "SUP", "crise", [("code", "01"), ("nom", "Ain")], [("fichier", "u1")]⟩]
    [⟨"a", "SUP", "crise", [("code", "01"), ("nom", "Ain")],
      [("fichier", "u1")], "01", "u1"⟩]
    (by rfl) _ (by simp)

/-- C7: for a date-filtered archive row whose two string-encoded list columns
parse to lists of the same length `n` (pandas raises otherwise) with `n ≥ 1`,
`explodeRow` — the parse-then-explode step that `calculer_dept_arretes_date`
performs before the type and level filters — produces exactly one row per
paired (`niveau_gravite`, `type`) element: `n` candidate rows, hence at most
`n` distinct ones. -/
theorem explosion_colonnes_listes (r : LigneArrete) (gs ts : List PyScalar)
    (hg : safe_literal_eval r.zones_alerte_niveau_gravite = .list gs)
    (ht : safe_literal_eval r.zones_alerte_type = .list ts)
    (hlen : gs.length = ts.length) (hne : gs ≠ []) :
    explodeRow r = .ok ((gs.zip ts).map
      (fun p => (⟨r.date_debut, r.date_fin, some p.1, some p.2,
        r.departement⟩ : LigneExp))) ∧
    ((gs.zip ts).map (fun p => (⟨r.date_debut, r.date_fin, some p.1, some p.2,
        r.departement⟩ : LigneExp))).length = gs.length ∧
    (((gs.zip ts).map (fun p => (⟨r.date_debut, r.date_fin, some p.1,
        some p.2, r.departement⟩ : LigneExp))).dedup).length ≤ gs.length := by
  have hlong : ((gs.zip ts).map (fun p => (⟨r.date_debut, r.date_fin,
      some p.1, some p.2, r.departement⟩ : LigneExp))).length = gs.length := by
    rw [List.length_map, List.length_zip, ← hlen, Nat.min_self]
  refine ⟨?_, hlong, ?_⟩
  · have hge : gs.isEmpty = false := by
      cases gs with
      | nil => exact absurd rfl hne
      | cons a l => rfl
    have hpair : explodePair (PyVal.list gs) (PyVal.list ts)
        = .ok ((gs.zip ts).map (fun p => (some p.1, some p.2))) := by
      simp only [explodePair]
      rw [if_pos hlen, if_neg (by simp [hge])]
    unfold explodeRow
    rw [hg, ht, hpair]
    simp only [Except.map]
    rw [List.map_map]
    rfl
  · exact le_trans (List.Sublist.length_le (List.dedup_sublist _))
      (le_of_eq hlong)

/-- Witness for C7 at a concrete two-zone arrêté. -/
theorem explosion_colonnes_listes_temoin :
    explodeRow ⟨"2024-03-15", "2024-12-31", "[\"crise\", \"alerte\"]",
        "[\"SUP\", \"SOU\"]", "01"⟩
      = .ok (([(PyScalar.str "crise", PyScalar.str "SUP"),
               (PyScalar.str "alerte", PyScalar.str "SOU")].map
        (fun p => (⟨"2024-03-15", "2024-12-31", some p.1, some p.2,
          "01"⟩ : LigneExp)))) ∧
    ([(PyScalar.str "crise", PyScalar.str "SUP"),
      (PyScalar.str "alerte", PyScalar.str "SOU")].map
        (fun p => (⟨"2024-03-15", "2024-12-31", some p.1, some p.2,
          "01"⟩ : LigneExp))).length
      = ([PyScalar.str "crise", PyScalar.str "alerte"] : List PyScalar).length ∧
    (([(PyScalar.str "crise", PyScalar.str "SUP"),
       (PyScalar.str "alerte", PyScalar.str "SOU")].map
        (fun p => (⟨"2024-03-15", "2024-12-31", some p.1, some p.2,
          "01"⟩ : LigneExp))).dedup).length
      ≤ ([PyScalar.str "crise", PyScalar.str "alerte"] : List PyScalar).length :=
  explosion_colonnes_listes
    ⟨"2024-03-15", "2024-12-31", "[\"crise\", \"alerte\"]",
      "[\"SUP\", \"SOU\"]", "01"⟩
    [PyScalar.str "crise", PyScalar.str "alerte"]
    [PyScalar.str "SUP", PyScalar.str "SOU"]
    (by rfl) (by rfl) (by rfl) (by decide)

/-- C6: category membership on water type is applied to both data sources —
every row of the zone layer returned by `get_zones_secheresse` has type
`'SUP'`, and appending to the archive a row none of whose exploded elements
has `zones_alerte.type = 'SUP'` never changes the department count of
`calculer_dept_arretes_date` (rows of any other type do not affect the map
layer or the counts). -/
theorem filtre_type_sup_deux_sources :
    (∀ (depuis_fichier : Bool) (zones : List ZoneBrute) (sortie : List ZoneSup),
        get_zones_secheresse depuis_fichier zones = .ok sortie →
        ∀ z ∈ sortie, z.type = "SUP") ∧
    (∀ (df : List LigneArrete) (r : LigneArrete) (d : String)
        (nx : List String) (ps : List (Option PyScalar × Option PyScalar)),
        explodePair (safe_literal_eval r.zones_alerte_niveau_gravite)
            (safe_literal_eval r.zones_alerte_type) = .ok ps →
        (∀ p ∈ ps, ¬p.2 = some (PyScalar.str "SUP")) →
        calculer_dept_arretes_date (df ++ [r]) d nx
          = calculer_dept_arretes_date df d nx) := by
  constructor
  · intro depuis_fichier zones sortie h z hz
    obtain ⟨zb, _, hsup, htype, _⟩ :=
      get_zones_sortie_invariant depuis_fichier zones sortie h z hz
    rw [htype, hsup]
  · intro df r d nx ps hps hno
    have hrow : explodeRow r
        = .ok (ps.map (fun p => (⟨r.date_debut, r.date_fin, p.1, p.2,
          r.departement⟩ : LigneExp))) := by
      unfold explodeRow
      rw [hps]
      rfl
    have hr1 : explodeDf [r]
        = .ok (ps.map (fun p => (⟨r.date_debut, r.date_fin, p.1, p.2,
          r.departement⟩ : LigneExp))) := by
      simp [explodeDf, hrow, ok_bind]
    by_cases hFr : (lt_chaine r.date_debut d && lt_chaine d r.date_fin) = true
    · have hunit : List.filter (fun r' =>
          lt_chaine r'.date_debut d && lt_chaine d r'.date_fin) [r] = [r] := by
        simp [List.filter_cons, hFr]
      cases he : explodeDf (df.filter (fun r' =>
          lt_chaine r'.date_debut d && lt_chaine d r'.date_fin)) with
      | error e =>
        have hBig : explodeDf ((df ++ [r]).filter (fun r' =>
            lt_chaine r'.date_debut d && lt_chaine d r'.date_fin))
            = .error e := by
          rw [List.filter_append, hunit, explodeDf_append, he, error_bind]
        rw [calculer_dept_arretes_date_erreur df d nx e he,
          calculer_dept_arretes_date_erreur (df ++ [r]) d nx e hBig]
      | ok exp =>
        have hBig : explodeDf ((df ++ [r]).filter (fun r' =>
            lt_chaine r'.date_debut d && lt_chaine d r'.date_fin))
            = .ok (exp ++ ps.map (fun p => (⟨r.date_debut, r.date_fin, p.1,
              p.2, r.departement⟩ : LigneExp))) := by
          rw [List.filter_append, hunit, explodeDf_append, he, ok_bind, hr1,
            ok_bind]
          rfl
        rw [calculer_dept_arretes_date_caracterisation df d nx exp he,
          calculer_dept_arretes_date_caracterisation (df ++ [r]) d nx _ hBig]
        have hvide : (ps.map (fun p => (⟨r.date_debut, r.date_fin, p.1, p.2,
            r.departement⟩ : LigneExp))).filter
              (fun e => est_type_sup e && niveau_dans nx e) = [] := by
          rw [List.filter_eq_nil_iff]
          intro e he'
          rcases List.mem_map.mp he' with ⟨p, hpmem, hpe⟩
          have : est_type_sup e = false := by
            rw [← hpe]
            simpa [est_type_sup] using hno p hpmem
          simp [this]
        rw [List.filter_append, hvide, List.append_nil]
    · have hunit : List.filter (fun r' =>
          lt_chaine r'.date_debut d && lt_chaine d r'.date_fin) [r] = [] := by
        simp [List.filter_cons, hFr]
      cases he : explodeDf (df.filter (fun r' =>
          lt_chaine r'.date_debut d && lt_chaine d r'.date_fin)) with
      | error e =>
        have hBig : explodeDf ((df ++ [r]).filter (fun r' =>
            lt_chaine r'.date_debut d && lt_chaine d r'.date_fin))
            = .error e := by
          rw [List.filter_append, hunit, List.append_nil, he]
        rw [calculer_dept_arretes_date_erreur df d nx e he,
          calculer_dept_arretes_date_erreur (df ++ [r]) d nx e hBig]
      | ok exp =>
        have hBig : explodeDf ((df ++ [r]).filter (fun r' =>
            lt_chaine r'.date_debut d && lt_chaine d r'.date_fin))
            = .ok exp := by
          rw [List.filter_append, hunit, List.append_nil, he]
        rw [calculer_dept_arretes_date_caracterisation df d nx exp he,
          calculer_dept_arretes_date_caracterisation (df ++ [r]) d nx exp hBig]

/-- Witness for C6: a concrete uploaded layer row of type `SUP`, and a
concrete appended archive row whose only exploded element has type `SOU`. -/
theorem filtre_type_sup_deux_sources_temoin :
    (⟨"a", "SUP", "crise", [("code", "01")], [("fichier", "u1")], "01",
      "u1"⟩ : ZoneSup).type = "SUP" ∧
    calculer_dept_arretes_date
      ([⟨"2024-03-01", "2024-05-01", "crise", "SUP", "02"⟩] ++
        [⟨"2024-03-15", "2024-12-31", "[\"crise\"]", "[\"SOU\"]", "01"⟩])
      "2024-04-01" ["crise"]
      = calculer_dept_arretes_date
        [⟨"2024-03-01", "2024-05-01", "crise", "SUP", "02"⟩]
        "2024-04-01" ["crise"] :=
  ⟨filtre_type_sup_deux_sources.1 true
    [⟨"a", "SUP", "crise", [("code", "01")], [("fichier", "u1")]⟩]
    [⟨"a", "SUP", "crise", [("code", "01")], [("fichier", "u1")], "01", "u1"⟩]
    (by rfl) _ (by simp),
   filtre_type_sup_deux_sources.2
    [⟨"2024-03-01", "2024-05-01", "crise", "SUP", "02"⟩]
    ⟨"2024-03-15", "2024-12-31", "[\"crise\"]", "[\"SOU\"]", "01"⟩
    "2024-04-01" ["crise"]
    [(some (PyScalar.str "crise"), some (PyScalar.str "SOU"))]
    (by rfl) (by decide)⟩

/-- C10: `safe_literal_eval` never propagates the guarded failure: when
`literal_eval` (the model of `ast.literal_eval`) fails, it returns the
one-element list holding the unchanged input; when parsing succeeds it returns
the parsed literal itself, which is a list exactly when the input denotes a
list. -/
theorem safe_literal_eval_total (s : String) :
    (literal_eval s = none →
      safe_literal_eval s = PyVal.list [PyScalar.str s]) ∧
    (∀ v, literal_eval s = some v → safe_literal_eval s = v ∧
      ((safe_literal_eval s).est_liste = true ↔ ∃ xs, v = PyVal.list xs)) := by
  constructor
  · intro h
    simp [safe_literal_eval, h]
  · intro v h
    refine ⟨by simp [safe_literal_eval, h], ?_⟩
    simp only [safe_literal_eval, h]
    cases v <;> simp [PyVal.est_liste]

/-- Witness for C10: the bare level string fails to parse and is wrapped; a
numeric literal parses to a non-list scalar. -/
theorem safe_literal_eval_total_temoin :
    safe_literal_eval "SUP" = PyVal.list [PyScalar.str "SUP"] ∧
    safe_literal_eval "3" = PyVal.scalar (PyScalar.int 3) :=
  ⟨(safe_literal_eval_total "SUP").1 (by rfl),
   ((safe_literal_eval_total "3").2 (PyVal.scalar (PyScalar.int 3)) (by rfl)).1⟩

/-- C3: whenever `construire_table_indic` returns a table, that table has
exactly the three time-horizon rows `annee_courante`, `annee_precedente`,
`mois_precedent`, in this order (its columns are the nine fields of
`LigneIndic`). -/
theorem construire_table_indic_trois_lignes (df : List LigneArrete)
    (zones : List ZoneSup) (dept_iti : List Departement) (auj : Date)
    (t : List (String × LigneIndic))
    (h : construire_table_indic df zones dept_iti auj = .ok t) :
    t.map Prod.fst = ["annee_courante", "annee_precedente", "mois_precedent"]
      ∧ t.length = 3 := by
  simp only [construire_table_indic, except_bind_ok] at h
  obtain ⟨n1, h1, n2, h2, n3, h3, n4, h4, n5, h5, n6, h6, h7⟩ := h
  cases h7
  exact ⟨rfl, rfl⟩

/-- Witness for C3 at empty inputs. -/
theorem construire_table_indic_trois_lignes_temoin :
    ([("annee_courante", (⟨0, 0, "", 0, "", 0, "", 0, ""⟩ : LigneIndic)),
      ("annee_precedente", ⟨0, 0, "", 0, "", 0, "", 0, ""⟩),
      ("mois_precedent", ⟨0, 0, "", 0, "", 0, "", 0, ""⟩)].map Prod.fst
      = ["annee_courante", "annee_precedente", "mois_precedent"]) ∧
    ([("annee_courante", (⟨0, 0, "", 0, "", 0, "", 0, ""⟩ : LigneIndic)),
      ("annee_precedente", ⟨0, 0, "", 0, "", 0, "", 0, ""⟩),
      ("mois_precedent", ⟨0, 0, "", 0, "", 0, "", 0, ""⟩)].length = 3) :=
  construire_table_indic_trois_lignes [] [] [] ⟨2024, 5, 20⟩ _ (by rfl)

/-- Counterexample to C1 as stated: for this one-row archive (one `crise`/`SUP`
arrêté valid on 2023-05-01, the first day of the same month one year before
today 2024-05-20), the prior-year row of the indicator table holds `0` in its
`crise` column although exactly `1` distinct department has a valid `SUP`
arrêté at level `crise` on that date — the per-level prior-year cells are
hardcoded constants, not computed counts. -/
theorem table_indic_an_precedent_contre_exemple :
    construire_table_indic
      [⟨"2023-04-15", "2023-12-31", "[\"crise\"]", "[\"SUP\"]", "01"⟩]
      [] [] ⟨2024, 5, 20⟩
      = .ok [("annee_courante", ⟨0, 0, "", 0, "", 0, "", 0, ""⟩),
             ("annee_precedente", ⟨1, 0, "", 0, "", 0, "", 0, ""⟩),
             ("mois_precedent", ⟨0, 0, "", 0, "", 0, "", 0, ""⟩)] ∧
    calculer_dept_arretes_date
      [⟨"2023-04-15", "2023-12-31", "[\"crise\"]", "[\"SUP\"]", "01"⟩]
      "2023-05-01" ["crise"] = .ok 1 ∧
    (0 : Nat) ≠ 1 :=
  ⟨by rfl, by rfl, by decide⟩

/-- C1 as amended: the prior-year row of the indicator table carries one
aggregate count — `dept_fr`, the number of distinct departments having a valid
`'SUP'` arrêté at a level in `{alerte, "alerte renforcée", crise}` on the first
day of the same month one year before today — while its per-level columns are
the constants `0` and `""`. -/
theorem table_indic_ligne_annee_precedente (df : List LigneArrete)
    (zones : List ZoneSup) (dept_iti : List Departement) (auj : Date)
    (t : List (String × LigneIndic)) (n : Nat)
    (h : construire_table_indic df zones dept_iti auj = .ok t)
    (hn : calculer_dept_arretes_date df
        (isoformat ⟨auj.year - 1, auj.month, 1⟩)
        ["alerte", "alerte renforcée", "crise"] = .ok n) :
    t.lookup "annee_precedente" = some ⟨n, 0, "", 0, "", 0, "", 0, ""⟩ := by
  simp only [construire_table_indic, except_bind_ok] at h
  obtain ⟨n1, h1, n2, h2, n3, h3, n4, h4, n5, h5, n6, h6, h7⟩ := h
  cases h7
  have h1' : calculer_dept_arretes_date df
      (isoformat ⟨auj.year - 1, auj.month, 1⟩)
      ["alerte", "alerte renforcée", "crise"] = .ok n1 := h1
  rw [h1'] at hn
  cases hn
  rfl

/-- Witness for the amended C1 at the counterexample's archive. -/
theorem table_indic_ligne_annee_precedente_temoin :
    List.lookup "annee_precedente"
      [("annee_courante", (⟨0, 0, "", 0, "", 0, "", 0, ""⟩ : LigneIndic)),
       ("annee_precedente", ⟨1, 0, "", 0, "", 0, "", 0, ""⟩),
       ("mois_precedent", ⟨0, 0, "", 0, "", 0, "", 0, ""⟩)]
      = some ⟨1, 0, "", 0, "", 0, "", 0, ""⟩ :=
  table_indic_ligne_annee_precedente
    [⟨"2023-04-15", "2023-12-31", "[\"crise\"]", "[\"SUP\"]", "01"⟩] [] []
    ⟨2024, 5, 20⟩ _ 1 (by rfl) (by rfl)

/-- C4 is a code bug, witnessed here: with today 2024-05-20, an empty current
zone layer, the VNF department layer holding only Paris (75), and an archive
holding one `crise`/`SUP` arrêté of department 01 valid on 2024-04-01, the
`mois_precedent` row of the table stores `1` in `dept_vnf_crise_code`
(department 01 is counted although it is not a VNF department, contradicting
the docstring of `construire_table_indic`), no VNF department is in `crise`
at the current date, and `inserer_indic_dept` displays the mismatched
month-over-month difference `-1` for `crise` and `dept_fr`. -/
theorem indicateur_mois_precedent_non_vnf :
    construire_table_indic
      [⟨"2024-03-15", "2024-12-31", "[\"crise\"]", "[\"SUP\"]", "01"⟩]
      [] [⟨"75", "Paris"⟩] ⟨2024, 5, 20⟩
      = .ok [("annee_courante", ⟨0, 0, "", 0, "", 0, "", 0, ""⟩),
             ("annee_precedente", ⟨0, 0, "", 0, "", 0, "", 0, ""⟩),
             ("mois_precedent", ⟨1, 1, "", 0, "", 0, "", 0, ""⟩)] ∧
    inserer_indic_dept
      [("annee_courante", ⟨0, 0, "", 0, "", 0, "", 0, ""⟩),
       ("annee_precedente", ⟨0, 0, "", 0, "", 0, "", 0, ""⟩),
       ("mois_precedent", ⟨1, 1, "", 0, "", 0, "", 0, ""⟩)]
      = some ⟨-1, 0, 0, 0, -1⟩ ∧
    calculer_dept_zone_vnf_niveau [] [⟨"75", "Paris"⟩] "crise" = (0, "") ∧
    (([⟨"75", "Paris"⟩] : List Departement).map
      (fun d => d.insee_dep)).contains "01" = false :=
  ⟨by rfl, by rfl, by rfl, by rfl⟩

theorem pure_bind_ex {ε α β : Type} (a : α) (f : α → Except ε β) :
    ((pure a : Except ε α) >>= f) = f a := rfl

/-- Whenever a run of `main` completes, its map is the one built by
`construire_carte` from the zone and department layers alone (when the button
flag is set), whatever the archive fetch returned. -/
theorem mainRun_carte_aux (u f : Bool) (zb : List ZoneBrute)
    (zs : List ZoneSup) (arr : Except String (List LigneArrete))
    (dep : List Departement) (auj : Date) (o : SortieMain)
    (hz : get_zones_secheresse u zb = .ok zs)
    (h : mainRun u f (.ok zb) arr dep auj = .ok o) :
    o.carte = if f then some (construire_carte zs dep u) else none := by
  simp only [mainRun, ok_bind, hz] at h
  by_cases hb : (df_de arr).isEmpty = true
  · rw [if_pos hb] at h
    rw [pure_bind_ex] at h
    cases h
    rfl
  · rw [if_neg hb] at h
    rcases except_bind_ok.mp h with ⟨t, hct, h'⟩
    cases h'
    rfl

/-- C5: the only caught failure is the archive download.  (1) A zones-fetch
failure propagates out of `mainRun` uncaught; (2) when `get_arretes` raises,
the run still completes: the fallback text is shown, the archive dataframe is
replaced by the empty one, the indicator table is not built, the indicators
tab (rendered when the button flag is set) shows the failure message, and the
map is still the one built by `construire_carte`; (3) the built map never
depends on the archive fetch outcome. -/
theorem main_gestion_erreurs :
    (∀ (u f : Bool) (e : String)
        (arr : Except String (List LigneArrete))
        (dep : List Departement) (auj : Date),
        mainRun u f (.error e) arr dep auj = .error e) ∧
    (∀ (u f : Bool) (zb : List ZoneBrute) (s : String)
        (dep : List Departement) (auj : Date) (out : SortieMain),
        mainRun u f (.ok zb) (.error s) dep auj = .ok out →
        out.df_arretes = [] ∧ out.table_indic = none ∧
        "Echec du téléchargement des données des arrêtés" ∈ out.messages ∧
        out.indicateurs_affiches = false ∧
        out.message_indicateurs = (if f then
          some "Echec du téléchargement des données des arrêtés" else none) ∧
        ∃ zs, get_zones_secheresse u zb = .ok zs ∧
          out.carte = (if f then some (construire_carte zs dep u) else none)) ∧
    (∀ (u f : Bool) (zin : Except String (List ZoneBrute))
        (a1 a2 : Except String (List LigneArrete))
        (dep : List Departement) (auj : Date) (o1 o2 : SortieMain),
        mainRun u f zin a1 dep auj = .ok o1 →
        mainRun u f zin a2 dep auj = .ok o2 → o1.carte = o2.carte) := by
  refine ⟨fun u f e arr dep auj => rfl, ?_, ?_⟩
  · intro u f zb s dep auj out h
    cases hz : get_zones_secheresse u zb with
    | error e =>
      simp only [mainRun, ok_bind, hz, error_bind] at h
      cases h
    | ok zs =>
      simp only [mainRun, ok_bind, hz, df_de, echec_de, List.isEmpty_nil,
        eq_self_iff_true, if_true, Bool.and_true, Bool.not_true,
        Bool.and_false, pure_bind_ex] at h
      cases h
      refine ⟨rfl, rfl, by simp, rfl, rfl, zs, rfl, rfl⟩
  · intro u f zin a1 a2 dep auj o1 o2 h1 h2
    cases zin with
    | error e =>
      simp only [mainRun, error_bind] at h1
      cases h1
    | ok zb =>
      cases hz : get_zones_secheresse u zb with
      | error e =>
        simp only [mainRun, ok_bind, hz, error_bind] at h1
        cases h1
      | ok zs =>
        rw [mainRun_carte_aux u f zb zs a1 dep auj o1 hz h1,
          mainRun_carte_aux u f zb zs a2 dep auj o2 hz h2]

/-- The outcome of the concrete failed-archive run used as witness for C5. -/
def sortie_main_echec : SortieMain :=
  { trace := [.chargement_itineraire, .chargement_departements,
              .recuperation_zones, .recuperation_arretes,
              .construction_carte, .affichage_carte],
    messages := ["Chargement des données...",
                 "Echec du téléchargement des données des arrêtés",
                 "Chargement des données...Terminé !",
                 "Construction carte...", "Construction carte...Terminé !",
                 "Visualisation carte...", "Visualisation carte...Terminé !",
                 "Echec du téléchargement des données des arrêtés"],
    df_arretes := [],
    table_indic := none,
    carte := some ⟨[], [], true⟩,
    indicateurs_affiches := false,
    message_indicateurs := some "Echec du téléchargement des données des arrêtés" }

/-- Witness for C5: a run with a failing zones fetch propagates the error; a
run with a failing archive fetch completes with the empty dataframe and no
indicator table. -/
theorem main_gestion_erreurs_temoin :
    mainRun false true (.error "panne reseau") (.ok []) [] ⟨2024, 5, 20⟩
      = .error "panne reseau" ∧
    sortie_main_echec.df_arretes = [] ∧
    sortie_main_echec.table_indic = none :=
  ⟨main_gestion_erreurs.1 false true "panne reseau" (.ok []) [] ⟨2024, 5, 20⟩,
   (main_gestion_erreurs.2.1 false true [] "panne reseau" [] ⟨2024, 5, 20⟩
      sortie_main_echec (by rfl)).1,
   (main_gestion_erreurs.2.1 false true [] "panne reseau" [] ⟨2024, 5, 20⟩
      sortie_main_echec (by rfl)).2.1⟩

/-- The step trace of a completed run, as a function of the archive-fetch
outcome and the button flag. -/
theorem mainRun_trace_aux (u f : Bool) (zb : List ZoneBrute)
    (zs : List ZoneSup) (arr : Except String (List LigneArrete))
    (dep : List Departement) (auj : Date) (o : SortieMain)
    (hz : get_zones_secheresse u zb = .ok zs)
    (h : mainRun u f (.ok zb) arr dep auj = .ok o) :
    o.trace = [Etape.chargement_itineraire, Etape.chargement_departements,
        Etape.recuperation_zones, Etape.recuperation_arretes]
      ++ (if (df_de arr).isEmpty then [] else [Etape.calcul_table_indic])
      ++ (if f then [Etape.construction_carte, Etape.affichage_carte]
            ++ (if (df_de arr).isEmpty then [] else
                  [Etape.affichage_indicateurs])
          else []) := by
  simp only [mainRun, ok_bind, hz] at h
  by_cases hb : (df_de arr).isEmpty = true
  · rw [if_pos hb, pure_bind_ex] at h
    cases h
    rfl
  · rw [if_neg hb] at h
    rcases except_bind_ok.mp h with ⟨t, hct, h'⟩
    cases h'
    rfl

/-- C8: every completed run of `main` is one pass of the linear pipeline — no
step is re-entered (the trace has no duplicate), every step's phase is
monotone (fetching precedes the indicator aggregation, which precedes map and
indicator rendering), and both data sources are loaded in every run. -/
theorem main_pipeline_ordre (u f : Bool)
    (zin : Except String (List ZoneBrute))
    (arr : Except String (List LigneArrete))
    (dep : List Departement) (auj : Date) (out : SortieMain)
    (h : mainRun u f zin arr dep auj = .ok out) :
    out.trace.Nodup ∧ out.trace.Pairwise (fun a b => phase a ≤ phase b) ∧
    Etape.recuperation_zones ∈ out.trace ∧
    Etape.recuperation_arretes ∈ out.trace := by
  cases zin with
  | error e =>
    simp only [mainRun, error_bind] at h
    cases h
  | ok zb =>
    cases hz : get_zones_secheresse u zb with
    | error e =>
      simp only [mainRun, ok_bind, hz, error_bind] at h
      cases h
    | ok zs =>
      rw [mainRun_trace_aux u f zb zs arr dep auj out hz h]
      by_cases hb : (df_de arr).isEmpty = true
      · simp only [if_pos hb]
        by_cases hf : f = true
        · simp only [if_pos hf]
          decide
        · simp only [if_neg hf]
          decide
      · simp only [if_neg hb]
        by_cases hf : f = true
        · simp only [if_pos hf]
          decide
        · simp only [if_neg hf]
          decide

/-- The outcome of the concrete successful run used as witness for C8. -/
def sortie_main_ordre : SortieMain :=
  { trace := [.chargement_itineraire, .chargement_departements,
              .recuperation_zones, .recuperation_arretes,
              .construction_carte, .affichage_carte],
    messages := ["Chargement des données...",
                 "Chargement des données...Terminé !",
                 "Construction carte...", "Construction carte...Terminé !",
                 "Visualisation carte...", "Visualisation carte...Terminé !",
                 "Echec du téléchargement des données des arrêtés"],
    df_arretes := [],
    table_indic := none,
    carte := some ⟨[], [], true⟩,
    indicateurs_affiches := false,
    message_indicateurs := some "Echec du téléchargement des données des arrêtés" }

/-- Witness for C8 at a concrete completed run. -/
theorem main_pipeline_ordre_temoin :
    sortie_main_ordre.trace.Nodup ∧
    sortie_main_ordre.trace.Pairwise (fun a b => phase a ≤ phase b) ∧
    Etape.recuperation_zones ∈ sortie_main_ordre.trace ∧
    Etape.recuperation_arretes ∈ sortie_main_ordre.trace :=
  main_pipeline_ordre false true (.ok []) (.ok []) [] ⟨2024, 5, 20⟩
    sortie_main_ordre (by rfl)
